import Mathlib

/-!
Verification of the VaMBridgeServer bridge engine (TCP ↔ WebSocket bridge for
Virtamate plugins and browser clients).

The development shallowly embeds the Python sources:
- `core.py`     : the length-prefixed frame codec (`send_frame`, `recv_exact`,
                  `recv_frame`);
- `tcp_helpers.py` : controller normalization and command normalization
                  (`normalize_controllers`, `send_set_controller`,
                  `extract_payload`, `normalize_cmd`);
- `app.py`      : the live connection handlers (`handle_tcp_client`,
                  `ws_handler`, `broadcast`) with their identity registries.

Modelling conventions:
- bytes are `Nat` values (< 256 where it matters); a byte string is `List Nat`;
- a TCP transport is modelled as the total list of bytes the peer delivers
  before closing; `socket.recv(k)` on that model returns the first
  `min k remaining` bytes (a possible behaviour of a real socket, and the one
  that exactly characterises success/failure of `recv_exact`: the loop
  succeeds iff at least `k` bytes are delivered in total);
- JSON values (`JVal`) carry integers only (`num : Int`): no claim inspects a
  fractional numeric value, and Python's `1.0` default for `rotation.w` is
  represented by `num 1` (Python `1 == 1.0` holds);
- Python dicts are association lists `JObj` with unique keys in insertion
  order, as produced by `json.loads`;
- raised exceptions are `Except String` errors; `None` is `Option.none` (for
  absent values) or `JVal.null` (for JSON `null`).
-/

namespace VamBridge

/-- JSON values as handled by the bridge (Python objects after `json.loads`).
Numbers are modelled as integers; see the file header. -/
inductive JVal where
  | null : JVal
  | bool (b : Bool) : JVal
  | num (n : Int) : JVal
  | str (s : String) : JVal
  | arr (xs : List JVal) : JVal
  | obj (fields : List (String × JVal)) : JVal

open Decidable in
mutual

/-- Decidable equality on JSON values (Python `==` restricted to JSON data;
the bool/int overlap `True == 1` is not modelled, no claim exercises it). -/
def decEqVal : (a b : JVal) → Decidable (a = b)
  | .null, .null => isTrue rfl
  | .bool a, .bool b =>
      if h : a = b then isTrue (by rw [h]) else isFalse (fun hh => by cases hh; exact h rfl)
  | .num a, .num b =>
      if h : a = b then isTrue (by rw [h]) else isFalse (fun hh => by cases hh; exact h rfl)
  | .str a, .str b =>
      if h : a = b then isTrue (by rw [h]) else isFalse (fun hh => by cases hh; exact h rfl)
  | .arr a, .arr b =>
      match decEqArr a b with
      | isTrue h => isTrue (by rw [h])
      | isFalse h => isFalse (fun hh => by cases hh; exact h rfl)
  | .obj a, .obj b =>
      match decEqObj a b with
      | isTrue h => isTrue (by rw [h])
      | isFalse h => isFalse (fun hh => by cases hh; exact h rfl)
  | .null, .bool _ => isFalse (fun h => nomatch h)
  | .null, .num _ => isFalse (fun h => nomatch h)
  | .null, .str _ => isFalse (fun h => nomatch h)
  | .null, .arr _ => isFalse (fun h => nomatch h)
  | .null, .obj _ => isFalse (fun h => nomatch h)
  | .bool _, .null => isFalse (fun h => nomatch h)
  | .bool _, .num _ => isFalse (fun h => nomatch h)
  | .bool _, .str _ => isFalse (fun h => nomatch h)
  | .bool _, .arr _ => isFalse (fun h => nomatch h)
  | .bool _, .obj _ => isFalse (fun h => nomatch h)
  | .num _, .null => isFalse (fun h => nomatch h)
  | .num _, .bool _ => isFalse (fun h => nomatch h)
  | .num _, .str _ => isFalse (fun h => nomatch h)
  | .num _, .arr _ => isFalse (fun h => nomatch h)
  | .num _, .obj _ => isFalse (fun h => nomatch h)
  | .str _, .null => isFalse (fun h => nomatch h)
  | .str _, .bool _ => isFalse (fun h => nomatch h)
  | .str _, .num _ => isFalse (fun h => nomatch h)
  | .str _, .arr _ => isFalse (fun h => nomatch h)
  | .str _, .obj _ => isFalse (fun h => nomatch h)
  | .arr _, .null => isFalse (fun h => nomatch h)
  | .arr _, .bool _ => isFalse (fun h => nomatch h)
  | .arr _, .num _ => isFalse (fun h => nomatch h)
  | .arr _, .str _ => isFalse (fun h => nomatch h)
  | .arr _, .obj _ => isFalse (fun h => nomatch h)
  | .obj _, .null => isFalse (fun h => nomatch h)
  | .obj _, .bool _ => isFalse (fun h => nomatch h)
  | .obj _, .num _ => isFalse (fun h => nomatch h)
  | .obj _, .str _ => isFalse (fun h => nomatch h)
  | .obj _, .arr _ => isFalse (fun h => nomatch h)

/-- Decidable equality on JSON arrays. -/
def decEqArr : (a b : List JVal) → Decidable (a = b)
  | [], [] => isTrue rfl
  | [], _ :: _ => isFalse (fun h => nomatch h)
  | _ :: _, [] => isFalse (fun h => nomatch h)
  | a :: as, b :: bs =>
      match decEqVal a b, decEqArr as bs with
      | isTrue h1, isTrue h2 => isTrue (by rw [h1, h2])
      | isFalse h1, _ => isFalse (fun hh => by cases hh; exact h1 rfl)
      | _, isFalse h2 => isFalse (fun hh => by cases hh; exact h2 rfl)

/-- Decidable equality on JSON object field lists. -/
def decEqObj : (a b : List (String × JVal)) → Decidable (a = b)
  | [], [] => isTrue rfl
  | [], _ :: _ => isFalse (fun h => nomatch h)
  | _ :: _, [] => isFalse (fun h => nomatch h)
  | (k, v) :: as, (k', v') :: bs =>
      if hk : k = k' then
        match decEqVal v v', decEqObj as bs with
        | isTrue h1, isTrue h2 => isTrue (by rw [hk, h1, h2])
        | isFalse h1, _ => isFalse (fun hh => by cases hh; exact h1 rfl)
        | _, isFalse h2 => isFalse (fun hh => by cases hh; exact h2 rfl)
      else isFalse (fun hh => by cases hh; exact hk rfl)

end

instance : DecidableEq JVal := decEqVal

/-- A Python dict with JSON-value entries, in insertion order. -/
abbrev JObj := List (String × JVal)

/-- Dictionary read, `d.get(k)`: the value at the first matching key. -/
def jget (o : JObj) (k : String) : Option JVal :=
  match o with
  | [] => none
  | (k', v) :: rest => if k' = k then some v else jget rest k

/-- Dictionary write, `d[k] = v`: replace the value in place when the key is
present (keeping its position), append otherwise. -/
def jset (o : JObj) (k : String) (v : JVal) : JObj :=
  match o with
  | [] => [(k, v)]
  | (k', v') :: rest => if k' = k then (k, v) :: rest else (k', v') :: jset rest k v

/-- Python truthiness of a JSON value (`bool(v)`). -/
def pyTruthy : JVal → Bool
  | .null => false
  | .bool b => b
  | .num n => n != 0
  | .str s => !s.data.isEmpty
  | .arr xs => !xs.isEmpty
  | .obj fs => !fs.isEmpty

/-- Python truthiness of a value that may be absent (`None` is falsy). -/
def pyTruthyOpt : Option JVal → Bool
  | none => false
  | some v => pyTruthy v

-- Frame codec (core.py) ------------------------------------------------------

/-- The 4-byte little-endian encoding `struct.pack("<I", n)` (defined for
`n < 2^32`; the Python call raises beyond that). -/
def toLE4 (n : Nat) : List Nat :=
  [n % 256, n / 256 % 256, n / 65536 % 256, n / 16777216 % 256]

/-- The decoding `struct.unpack("<I", header)[0]` of a 4-byte header. -/
def fromLE4 : List Nat → Nat
  | [b0, b1, b2, b3] => b0 + 256 * b1 + 65536 * b2 + 16777216 * b3
  | _ => 0

/-- The byte string written by `core.send_frame`: a 4-byte little-endian
length prefix followed by the payload, sent as one `sendall`. -/
def send_frame (payload : List Nat) : List Nat :=
  toLE4 payload.length ++ payload

/-- The `while len(buf) < n` loop of `core.recv_exact`: `stream` is what the
peer still delivers, `buf` the bytes accumulated so far.  Each iteration's
`conn.recv(n - len(buf))` chunk is the first `min (n - len(buf)) |stream|`
bytes of the stream; an empty chunk means the socket closed, raising
`ConnectionError("Socket closed")`. -/
def recvExactLoop (stream : List Nat) (buf : List Nat) (n : Nat) :
    Except String (List Nat × List Nat) :=
  if h : n ≤ buf.length then
    .ok (buf, stream)
  else
    if hc : stream.take (n - buf.length) = [] then
      .error "Socket closed"
    else
      recvExactLoop (stream.drop (n - buf.length)) (buf ++ stream.take (n - buf.length)) n
termination_by n - buf.length
decreasing_by
  have hlen : 0 < (stream.take (n - buf.length)).length := List.length_pos.mpr hc
  have hle : (stream.take (n - buf.length)).length ≤ n - buf.length :=
    List.length_take_le _ _
  simp only [List.length_append]
  omega

/-- `core.recv_exact conn n`: read exactly `n` bytes, returning them together
with the undelivered remainder of the stream. -/
def recv_exact (stream : List Nat) (n : Nat) : Except String (List Nat × List Nat) :=
  recvExactLoop stream [] n

/-- `core.recv_frame`: read a 4-byte header, decode the length with
`struct.unpack("<I", header)`, then read that many payload bytes. -/
def recv_frame (stream : List Nat) : Except String (List Nat × List Nat) :=
  match recv_exact stream 4 with
  | .error e => .error e
  | .ok (header, rest) => recv_exact rest (fromLE4 header)

-- Closed form of recv_exact ---------------------------------------------------

theorem recvExactLoop_eq (stream buf : List Nat) (n : Nat) :
    recvExactLoop stream buf n =
      if n ≤ buf.length then .ok (buf, stream)
      else if n - buf.length ≤ stream.length then
        .ok (buf ++ stream.take (n - buf.length), stream.drop (n - buf.length))
      else .error "Socket closed" := by
  by_cases h : n ≤ buf.length
  · unfold recvExactLoop
    simp [h]
  · by_cases hc : stream.take (n - buf.length) = []
    · have hcases := List.take_eq_nil_iff.mp hc
      have hzero : stream.length = 0 := by
        rcases hcases with h1 | h1
        · omega
        · rw [h1]; rfl
      have hshort : ¬ n - buf.length ≤ stream.length := by omega
      unfold recvExactLoop
      simp [h, hc, hshort]
    · unfold recvExactLoop
      rw [dif_neg h, dif_neg hc]
      rw [recvExactLoop_eq (stream.drop (n - buf.length)) (buf ++ stream.take (n - buf.length)) n]
      by_cases hlong : n - buf.length ≤ stream.length
      · have hfull : (stream.take (n - buf.length)).length = n - buf.length := by
          rw [List.length_take]; omega
        have hdone : n ≤ (buf ++ stream.take (n - buf.length)).length := by
          simp only [List.length_append, hfull]; omega
        rw [if_pos hdone, if_neg h, if_pos hlong]
      · have hshort : (stream.take (n - buf.length)).length = stream.length := by
          rw [List.length_take]; omega
        have hnot : ¬ n ≤ (buf ++ stream.take (n - buf.length)).length := by
          simp only [List.length_append, hshort]; omega
        have hdropnil : stream.drop (n - buf.length) = [] := by
          apply List.drop_eq_nil_of_le; omega
        have hnot2 : ¬ n - (buf ++ stream.take (n - buf.length)).length ≤
            (stream.drop (n - buf.length)).length := by
          simp only [List.length_append, hshort, hdropnil, List.length_nil]
          omega
        rw [if_neg hnot, if_neg hnot2, if_neg h, if_neg hlong]
termination_by n - buf.length
decreasing_by
  have hlen : 0 < (stream.take (n - buf.length)).length := List.length_pos.mpr hc
  have hle : (stream.take (n - buf.length)).length ≤ n - buf.length :=
    List.length_take_le _ _
  simp only [List.length_append]
  omega

theorem recv_exact_eq (stream : List Nat) (n : Nat) :
    recv_exact stream n =
      if n ≤ stream.length then .ok (stream.take n, stream.drop n)
      else .error "Socket closed" := by
  unfold recv_exact
  rw [recvExactLoop_eq]
  simp only [List.length_nil, Nat.le_zero, Nat.sub_zero, List.nil_append]
  by_cases h0 : n = 0
  · subst h0
    simp
  · simp [h0]

theorem fromLE4_toLE4 (n : Nat) (h : n < 2 ^ 32) : fromLE4 (toLE4 n) = n := by
  simp only [toLE4, fromLE4]
  omega

theorem toLE4_length (n : Nat) : (toLE4 n).length = 4 := by
  simp [toLE4]

/-- CLAIM C1 — Frame codec round-trip: for every byte string `p` with
`|p| < 2^32`, encoding `p` with `send_frame` (4-byte little-endian length
prefix followed by the payload) and decoding from a transport fed exactly
those bytes with `recv_frame` returns `p` (and consumes the whole stream). -/
theorem frame_roundtrip (p : List Nat) (h : p.length < 2 ^ 32) :
    recv_frame (send_frame p) = .ok (p, []) := by
  unfold recv_frame send_frame
  have hlen4 : (toLE4 p.length).length = 4 := toLE4_length p.length
  have h1 : recv_exact (toLE4 p.length ++ p) 4 = .ok (toLE4 p.length, p) := by
    rw [recv_exact_eq]
    have hle : 4 ≤ (toLE4 p.length ++ p).length := by
      simp [List.length_append, hlen4]
    rw [if_pos hle, List.take_left' hlen4, List.drop_left' hlen4]
  rw [h1]
  show recv_exact p (fromLE4 (toLE4 p.length)) = Except.ok (p, [])
  rw [fromLE4_toLE4 p.length h]
  rw [recv_exact_eq]
  simp

/-- Witness for C1 at the concrete payload `[7, 200, 13]`. -/
theorem frame_roundtrip_witness :
    ([7, 200, 13] : List Nat).length < 2 ^ 32 ∧
      recv_frame (send_frame [7, 200, 13]) = .ok ([7, 200, 13], []) :=
  ⟨by decide, frame_roundtrip [7, 200, 13] (by decide)⟩

/-- CLAIM C2 — Truncated stream: whenever the transport is exhausted before
`n + 4` total bytes were delivered, where `n` is the length decoded from the
(up to) 4-byte prefix, `recv_frame` raises the closed-connection error and in
particular never returns a truncated payload. -/
theorem recv_frame_truncated (stream : List Nat)
    (h : stream.length < 4 + fromLE4 (stream.take 4)) :
    recv_frame stream = .error "Socket closed" := by
  unfold recv_frame
  by_cases h4 : 4 ≤ stream.length
  · rw [recv_exact_eq, if_pos h4]
    show recv_exact (stream.drop 4) (fromLE4 (stream.take 4)) = Except.error "Socket closed"
    have hno : ¬ fromLE4 (stream.take 4) ≤ (stream.drop 4).length := by
      rw [List.length_drop]; omega
    rw [recv_exact_eq, if_neg hno]
  · rw [recv_exact_eq, if_neg h4]

/-- Witness for C2: the stream `[5,0,0,0,1,2]` announces a 5-byte payload but
delivers only 2 payload bytes. -/
theorem recv_frame_truncated_witness :
    ([5, 0, 0, 0, 1, 2] : List Nat).length < 4 + fromLE4 (([5, 0, 0, 0, 1, 2] : List Nat).take 4) ∧
      recv_frame [5, 0, 0, 0, 1, 2] = .error "Socket closed" :=
  ⟨by decide, recv_frame_truncated [5, 0, 0, 0, 1, 2] (by decide)⟩

-- Python string/repr helpers ---------------------------------------------------

/-- Python whitespace characters recognised by `str.strip()` (ASCII range;
Unicode space classes beyond it are not exercised by the bridge). -/
def pyIsSpaceChar (c : Char) : Bool :=
  c == ' ' || c == '\t' || c == '\n' || c == '\r' || c == '\x0b' || c == '\x0c'

/-- Python `str.strip()`: remove leading and trailing whitespace. -/
def pyStrip (s : String) : String :=
  ⟨((s.data.dropWhile pyIsSpaceChar).reverse.dropWhile pyIsSpaceChar).reverse⟩

mutual

/-- Python `repr` of a JSON value (used by `str` on non-string values).
String quoting uses single quotes; Python's quote-switching for strings that
contain a quote is not modelled (no bridge value exercises it). -/
def pyReprVal : JVal → String
  | .null => "None"
  | .bool b => if b then "True" else "False"
  | .num n => toString n
  | .str s => "\x27" ++ s ++ "\x27"
  | .arr xs => "[" ++ pyReprArr xs ++ "]"
  | .obj fs => "\x7b" ++ pyReprFields fs ++ "\x7d"

/-- Comma-separated `repr` of list elements. -/
def pyReprArr : List JVal → String
  | [] => ""
  | [v] => pyReprVal v
  | v :: vs => pyReprVal v ++ ", " ++ pyReprArr vs

/-- Comma-separated `repr` of dict entries. -/
def pyReprFields : List (String × JVal) → String
  | [] => ""
  | [(k, v)] => "\x27" ++ k ++ "\x27: " ++ pyReprVal v
  | (k, v) :: fs => "\x27" ++ k ++ "\x27: " ++ pyReprVal v ++ ", " ++ pyReprFields fs

end

/-- Python `str(v)`: the string itself for strings, `repr` otherwise. -/
def pyStr : JVal → String
  | .str s => s
  | v => pyReprVal v

/-- Python `str` applied to a possibly-absent value (`str(None) = "None"`). -/
def pyStrOpt : Option JVal → String
  | none => "None"
  | some v => pyStr v

-- Controller normalization (tcp_helpers.py) ------------------------------------

/-- The drop test of `normalize_controllers`:
`not cid or (isinstance(cid, str) and cid.strip() == "")`. -/
def invalidControllerId (cid : Option JVal) : Bool :=
  !pyTruthyOpt cid ||
    (match cid with
     | some (.str t) => pyStrip t == ""
     | _ => false)

/-- The coercion `dict(ctrl.get("rotation") or {})`: a falsy or absent value
becomes the empty dict, a dict is copied, and any other truthy value raises
`TypeError` (a truthy list of pairs would actually convert in Python, but no
JSON-decoded rotation has that shape). -/
def rotationDict (v : Option JVal) : Except String JObj :=
  match v with
  | none => .ok []
  | some v =>
      if pyTruthy v then
        match v with
        | .obj fs => .ok fs
        | _ => .error "TypeError"
      else .ok []

/-- The default test `"w" not in rot or rot["w"] is None`. -/
def wNeedsDefault (rot : JObj) : Bool :=
  match jget rot "w" with
  | none => true
  | some .null => true
  | some _ => false

/-- Shallow embedding of `tcp_helpers.normalize_controllers`: iterate the
controller list in order; drop entries failing the id test; stringify the
surviving id; copy the rotation dict, defaulting `w` to `1.0` when missing or
null; keep every other field of the (copied) entry unchanged.  A `TypeError`
raised by the rotation coercion aborts the whole call. -/
def normalize_controllers : List JObj → Except String (List JObj)
  | [] => .ok []
  | c :: rest =>
      if invalidControllerId (jget c "id") then
        normalize_controllers rest
      else
        match rotationDict (jget c "rotation") with
        | .error e => .error e
        | .ok rot =>
            let rot2 := if wNeedsDefault rot then jset rot "w" (.num 1) else rot
            let ctrl := jset (jset c "id" (.str (pyStrOpt (jget c "id")))) "rotation" (.obj rot2)
            match normalize_controllers rest with
            | .error e => .error e
            | .ok ns => .ok (ctrl :: ns)

/-- Test that an `Except` result is a success. -/
def exceptIsOk : Except String JObj → Bool
  | .ok _ => true
  | .error _ => false

-- JSON serialization (json.dumps) ----------------------------------------------

/-- Four lowercase hex digits, as in Python's `\uXXXX` escapes. -/
def hex4 (n : Nat) : String :=
  let d := fun (k : Nat) => (Nat.digitChar (n / 16 ^ k % 16))
  ⟨[d 3, d 2, d 1, d 0]⟩

/-- Escape one character as Python's `json.dumps` does with the default
`ensure_ascii=True`: the two JSON metacharacters, the short escapes, and a
`\uXXXX` escape for everything outside printable ASCII (characters beyond
the BMP would use surrogate pairs; none appear in bridge traffic). -/
def jsonEscapeChar (c : Char) : String :=
  if c = '"' then "\\\""
  else if c = '\\' then "\\\\"
  else if c = '\n' then "\\n"
  else if c = '\t' then "\\t"
  else if c = '\r' then "\\r"
  else if c = '\x08' then "\\b"
  else if c = '\x0c' then "\\f"
  else if c.toNat < 32 ∨ c.toNat > 126 then "\\u" ++ hex4 c.toNat
  else ⟨[c]⟩

/-- A JSON string literal with `json.dumps` escaping. -/
def jsonQuote (s : String) : String :=
  "\"" ++ String.join (s.data.map jsonEscapeChar) ++ "\""

mutual

/-- Python `json.dumps` with the given separators: `", ", ": "` is the
default used by `app.py`, `",", ":"` the compact form of `tcp_helpers.py`. -/
def jdumps (isep ksep : String) : JVal → String
  | .null => "null"
  | .bool b => if b then "true" else "false"
  | .num n => toString n
  | .str s => jsonQuote s
  | .arr xs => "[" ++ jdumpsArr isep ksep xs ++ "]"
  | .obj fs => "\x7b" ++ jdumpsFields isep ksep fs ++ "\x7d"

/-- Serialized array elements, joined by the item separator. -/
def jdumpsArr (isep ksep : String) : List JVal → String
  | [] => ""
  | [v] => jdumps isep ksep v
  | v :: vs => jdumps isep ksep v ++ isep ++ jdumpsArr isep ksep vs

/-- Serialized object entries, joined by the separators. -/
def jdumpsFields (isep ksep : String) : List (String × JVal) → String
  | [] => ""
  | [(k, v)] => jsonQuote k ++ ksep ++ jdumps isep ksep v
  | (k, v) :: fs => jsonQuote k ++ ksep ++ jdumps isep ksep v ++ isep ++ jdumpsFields isep ksep fs

end

/-- The `.encode("utf-8")` of a `json.dumps` result.  With `ensure_ascii`
(the default) the dumps output is pure ASCII, whose UTF-8 bytes coincide with
the code points. -/
def strBytes (s : String) : List Nat :=
  s.data.map Char.toNat

/-- Shallow embedding of `tcp_helpers.send_set_controller`: nothing is sent
for a falsy input list; the list is normalized; nothing is sent when nothing
survives; otherwise a compact-separator `set_controller` frame is sent.  The
`ts` argument stands for `now_iso()` (whose value is irrelevant here; note
that `core.py` does not actually define `now_iso`, so importing
`tcp_helpers.py` as shipped fails). -/
def send_set_controller (ts : String) (controllers : List JObj) :
    Except String (Option (List Nat)) :=
  if controllers.isEmpty then .ok none
  else
    match normalize_controllers controllers with
    | .error e => .error e
    | .ok ncs =>
        if ncs.isEmpty then .ok none
        else
          .ok (some (send_frame (strBytes (jdumps "," ":"
            (.obj [("cmd", .str "set_controller"),
                   ("data", .arr (ncs.map .obj)),
                   ("ts", .str ts)])))))

-- Payload extraction and command normalization (tcp_helpers.py) -----------------

/-- Key presence, Python `k in obj`. -/
def hasKey (o : JObj) (k : String) : Bool :=
  (jget o k).isSome

/-- Shallow embedding of `tcp_helpers.extract_payload`: `data` if present and
non-null, else `morphs`, else `controllers`, else `None`. -/
def extract_payload (obj : JObj) : Option JVal :=
  if hasKey obj "data" && !(jget obj "data" == some .null) then jget obj "data"
  else if hasKey obj "morphs" && !(jget obj "morphs" == some .null) then jget obj "morphs"
  else if hasKey obj "controllers" && !(jget obj "controllers" == some .null) then jget obj "controllers"
  else none

/-- Python `s.endswith(t)`. -/
def pyEndsWith (s t : String) : Bool :=
  t.data.isSuffixOf s.data

/-- Truthiness of the `cmd` argument (`None` or the empty string are falsy). -/
def cmdTruthy : Option String → Bool
  | none => false
  | some s => !s.data.isEmpty

/-- Python `cmd not in (...)` over an optional command name. -/
def cmdNotIn (cmd : Option String) (l : List String) : Bool :=
  match cmd with
  | some s => !l.contains s
  | none => true

/-- Shallow embedding of `tcp_helpers.normalize_cmd` (the `cmd` argument is
`None` when the envelope has no `cmd` key): a command already ending in
`_result` is returned unchanged; otherwise, with a payload present, a
`morphs` key rewrites to `read_all_morphs` and a `controllers` key to
`read_all_controllers` unless the command already is the target (or its
result); otherwise `cmd or ""`. -/
def normalize_cmd (cmd : Option String) (obj : JObj) (payload : Option JVal) : String :=
  if cmdTruthy cmd && pyEndsWith (cmd.getD "") "_result" then cmd.getD ""
  else
    if payload.isSome then
      if hasKey obj "morphs" && cmdNotIn cmd ["read_all_morphs", "read_all_morphs_result"] then
        "read_all_morphs"
      else if hasKey obj "controllers" &&
          cmdNotIn cmd ["read_all_controllers", "read_all_controllers_result"] then
        "read_all_controllers"
      else cmd.getD ""
    else cmd.getD ""

-- Claims C5, C7, C8 -------------------------------------------------------------

/-- The drop condition exactly as claim C5 states it: the entry's id is
missing, null, or an empty/whitespace-only string.  (The code additionally
drops every other Python-falsy id, e.g. `0`, `False`, `[]`.) -/
def claimedInvalidId (c : JObj) : Bool :=
  match jget c "id" with
  | none => true
  | some .null => true
  | some (.str t) => pyStrip t == ""
  | some _ => false

/-- The rewrite `normalize_controllers` applies to each surviving entry:
stringify the id, replace the rotation by a copied dict with `w` defaulted to
`1.0` when missing or null, keep every other field unchanged. -/
def fixEntry (c : JObj) : JObj :=
  let rot := match rotationDict (jget c "rotation") with
    | .ok fs => fs
    | .error _ => []
  let rot2 := if wNeedsDefault rot then jset rot "w" (.num 1) else rot
  jset (jset c "id" (.str (pyStrOpt (jget c "id")))) "rotation" (.obj rot2)

/-- Helper: on lists whose kept entries have convertible rotations, the
normalization loop is drop-filter followed by the per-entry rewrite. -/
theorem normCtrl_filter_map : ∀ cs : List JObj,
    (∀ c ∈ cs, invalidControllerId (jget c "id") = false →
      exceptIsOk (rotationDict (jget c "rotation")) = true) →
    normalize_controllers cs =
      .ok ((cs.filter (fun c => !invalidControllerId (jget c "id"))).map fixEntry) := by
  intro cs
  induction cs with
  | nil => intro _; rfl
  | cons c rest ih =>
      intro hrot
      have hrest := fun d hd => hrot d (List.mem_cons_of_mem c hd)
      by_cases hinv : invalidControllerId (jget c "id") = true
      · unfold normalize_controllers
        rw [if_pos hinv, ih hrest]
        simp [List.filter_cons, hinv]
      · have hinv' : invalidControllerId (jget c "id") = false := by
          cases hb : invalidControllerId (jget c "id")
          · rfl
          · exact absurd hb hinv
        have hok := hrot c (List.mem_cons_self c rest) hinv'
        obtain ⟨fs, hfs⟩ : ∃ fs, rotationDict (jget c "rotation") = .ok fs := by
          cases hr : rotationDict (jget c "rotation") with
          | ok fs => exact ⟨fs, rfl⟩
          | error e => rw [hr] at hok; simp [exceptIsOk] at hok
        unfold normalize_controllers
        rw [if_neg hinv]
        rw [hfs, ih hrest]
        simp only [List.filter_cons, hinv', Bool.not_false, if_pos, List.map_cons]
        unfold fixEntry
        rw [hfs]

/-- CLAIM C5 (amended) — For every controller list whose kept entries carry a
convertible rotation, `normalize_controllers` iterates in order and drops
exactly the entries whose id is Python-falsy (missing, null, `False`, `0`,
empty string/array/object) or a whitespace-only string — not only the
missing/null/empty-string ids of the original claim; each surviving entry has
its id stringified and `rotation.w` set to `1.0` whenever missing or null,
all other fields unchanged; and `send_set_controller` sends nothing whenever
the normalized list is empty. -/
theorem normalize_controllers_amended (cs : List JObj)
    (hrot : ∀ c ∈ cs, invalidControllerId (jget c "id") = false →
      exceptIsOk (rotationDict (jget c "rotation")) = true) :
    normalize_controllers cs =
      .ok ((cs.filter (fun c => !invalidControllerId (jget c "id"))).map fixEntry) ∧
    ∀ ts, normalize_controllers cs = .ok [] → send_set_controller ts cs = .ok none := by
  refine ⟨normCtrl_filter_map cs hrot, ?_⟩
  intro ts h0
  cases cs with
  | nil => rfl
  | cons c rest =>
      unfold send_set_controller
      rw [h0]
      simp [List.isEmpty]

/-- The spec's own normalization example: two valid ids around an empty one,
the last entry with an incomplete rotation. -/
def exampleControllers : List JObj :=
  [[("id", JVal.str "l_hand")],
   [("id", JVal.str "")],
   [("id", JVal.str "r_hand"),
    ("rotation", JVal.obj [("x", JVal.num 0), ("y", JVal.num 0), ("z", JVal.num 0)])]]

/-- Witness for the amended C5 at the spec's example list. -/
theorem normalize_controllers_amended_witness :
    (∀ c ∈ exampleControllers, invalidControllerId (jget c "id") = false →
      exceptIsOk (rotationDict (jget c "rotation")) = true) ∧
    normalize_controllers exampleControllers =
      .ok ((exampleControllers.filter
            (fun c => !invalidControllerId (jget c "id"))).map fixEntry) :=
  ⟨by decide, (normalize_controllers_amended exampleControllers (by decide)).1⟩

/-- CLAIM C5 counterexample — the entry `{"id": 0}` has an id that is
present, non-null and not a string, so the claim as stated keeps it; the code
drops it because `0` is falsy. -/
theorem normalize_controllers_claim_counterexample :
    normalize_controllers [[("id", JVal.num 0)]] = .ok [] ∧
      claimedInvalidId [("id", JVal.num 0)] = false :=
  ⟨rfl, rfl⟩

/-- Key that is absent or bound to JSON null (the claim's "missing or null"). -/
def keyNullish (o : JObj) (k : String) : Prop :=
  jget o k = none ∨ jget o k = some .null

/-- CLAIM C7 — payload extraction follows the fixed data/morphs/controllers
precedence, and for a command not ending in `_result`, `normalize_cmd`
rewrites to `read_all_morphs` when a payload was extracted, a `morphs` key is
present and the command is not already `read_all_morphs(_result)`; else to
`read_all_controllers` under the analogous condition; else returns the
command unchanged (the empty string when absent). -/
theorem extract_normalize_spec (obj : JObj) (cmd : Option String)
    (hres : pyEndsWith (cmd.getD "") "_result" = false) :
    (∀ v : JVal, extract_payload obj = some v ↔
      ((jget obj "data" = some v ∧ v ≠ .null) ∨
       (keyNullish obj "data" ∧ jget obj "morphs" = some v ∧ v ≠ .null) ∨
       (keyNullish obj "data" ∧ keyNullish obj "morphs" ∧
         jget obj "controllers" = some v ∧ v ≠ .null))) ∧
    (extract_payload obj = none ↔
      (keyNullish obj "data" ∧ keyNullish obj "morphs" ∧ keyNullish obj "controllers")) ∧
    normalize_cmd cmd obj (extract_payload obj) =
      (if (extract_payload obj).isSome = true ∧ hasKey obj "morphs" = true ∧
          cmdNotIn cmd ["read_all_morphs", "read_all_morphs_result"] = true then
        "read_all_morphs"
      else if (extract_payload obj).isSome = true ∧ hasKey obj "controllers" = true ∧
          cmdNotIn cmd ["read_all_controllers", "read_all_controllers_result"] = true then
        "read_all_controllers"
      else cmd.getD "") := by
  have hnn : ∀ k, (hasKey obj k && !(jget obj k == some JVal.null)) = true ↔
      (∃ v, jget obj k = some v ∧ v ≠ JVal.null) := by
    intro k
    cases hk : jget obj k with
    | none => simp [hasKey, hk]
    | some v =>
        by_cases hv : v = JVal.null
        · subst hv; simp [hasKey, hk]
        · simp [hasKey, hk, hv]
  have hnn2 : ∀ k, (hasKey obj k && !(jget obj k == some JVal.null)) = false ↔
      keyNullish obj k := by
    intro k
    cases hk : jget obj k with
    | none => simp [hasKey, hk, keyNullish]
    | some v =>
        by_cases hv : v = JVal.null
        · subst hv; simp [hasKey, hk, keyNullish]
        · simp [hasKey, hk, keyNullish, hv]
  refine ⟨?_, ?_, ?_⟩
  · intro v
    unfold extract_payload
    by_cases h1 : (hasKey obj "data" && !(jget obj "data" == some JVal.null)) = true
    · obtain ⟨w, hw, hwn⟩ := (hnn "data").mp h1
      rw [if_pos h1]
      constructor
      · intro he
        exact Or.inl ⟨he, by rintro rfl; rw [he] at hw; exact hwn (Option.some.inj hw).symm⟩
      · rintro (⟨he, _⟩ | ⟨hd, _, _⟩ | ⟨hd, _, _, _⟩)
        · exact he
        · exact absurd ((hnn2 "data").mpr hd) (by simp [h1])
        · exact absurd ((hnn2 "data").mpr hd) (by simp [h1])
    · have h1' : (hasKey obj "data" && !(jget obj "data" == some JVal.null)) = false := by
        cases hb : (hasKey obj "data" && !(jget obj "data" == some JVal.null))
        · rfl
        · exact absurd hb h1
      have hdn : keyNullish obj "data" := (hnn2 "data").mp h1'
      have hdnot : ¬ (jget obj "data" = some v ∧ v ≠ JVal.null) := by
        rintro ⟨he, hv⟩
        rcases hdn with h2 | h2
        · rw [he] at h2; cases h2
        · rw [he] at h2; exact hv (Option.some.inj h2)
      rw [if_neg h1]
      by_cases h2 : (hasKey obj "morphs" && !(jget obj "morphs" == some JVal.null)) = true
      · obtain ⟨w, hw, hwn⟩ := (hnn "morphs").mp h2
        rw [if_pos h2]
        constructor
        · intro he
          exact Or.inr (Or.inl ⟨hdn, he,
            by rintro rfl; rw [he] at hw; exact hwn (Option.some.inj hw).symm⟩)
        · rintro (hcase | ⟨_, he, _⟩ | ⟨_, hm, _, _⟩)
          · exact absurd hcase hdnot
          · exact he
          · exact absurd ((hnn2 "morphs").mpr hm) (by simp [h2])
      · have h2' : (hasKey obj "morphs" && !(jget obj "morphs" == some JVal.null)) = false := by
          cases hb : (hasKey obj "morphs" && !(jget obj "morphs" == some JVal.null))
          · rfl
          · exact absurd hb h2
        have hmn : keyNullish obj "morphs" := (hnn2 "morphs").mp h2'
        have hmnot : ¬ (jget obj "morphs" = some v ∧ v ≠ JVal.null) := by
          rintro ⟨he, hv⟩
          rcases hmn with h3 | h3
          · rw [he] at h3; cases h3
          · rw [he] at h3; exact hv (Option.some.inj h3)
        rw [if_neg h2]
        by_cases h3 : (hasKey obj "controllers" && !(jget obj "controllers" == some JVal.null)) = true
        · obtain ⟨w, hw, hwn⟩ := (hnn "controllers").mp h3
          rw [if_pos h3]
          constructor
          · intro he
            exact Or.inr (Or.inr ⟨hdn, hmn, he,
              by rintro rfl; rw [he] at hw; exact hwn (Option.some.inj hw).symm⟩)
          · rintro (hcase | ⟨_, he, hv⟩ | ⟨_, _, he, _⟩)
            · exact absurd hcase hdnot
            · exact absurd ⟨he, hv⟩ hmnot
            · exact he
        · rw [if_neg h3]
          constructor
          · intro he; cases he
          · rintro (hcase | ⟨_, he, hv⟩ | ⟨_, _, he, hv⟩)
            · exact absurd hcase hdnot
            · exact absurd ⟨he, hv⟩ hmnot
            · refine absurd ?_ h3
              rw [hnn "controllers"]
              exact ⟨v, he, hv⟩
  · unfold extract_payload
    constructor
    · intro he
      by_cases h1 : (hasKey obj "data" && !(jget obj "data" == some JVal.null)) = true
      · rw [if_pos h1] at he
        obtain ⟨w, hw, _⟩ := (hnn "data").mp h1
        rw [hw] at he; cases he
      · have h1' := (hnn2 "data").mp (by cases hb : (hasKey obj "data" && !(jget obj "data" == some JVal.null)); rfl; exact absurd hb h1)
        rw [if_neg h1] at he
        by_cases h2 : (hasKey obj "morphs" && !(jget obj "morphs" == some JVal.null)) = true
        · rw [if_pos h2] at he
          obtain ⟨w, hw, _⟩ := (hnn "morphs").mp h2
          rw [hw] at he; cases he
        · have h2' := (hnn2 "morphs").mp (by cases hb : (hasKey obj "morphs" && !(jget obj "morphs" == some JVal.null)); rfl; exact absurd hb h2)
          rw [if_neg h2] at he
          by_cases h3 : (hasKey obj "controllers" && !(jget obj "controllers" == some JVal.null)) = true
          · rw [if_pos h3] at he
            obtain ⟨w, hw, _⟩ := (hnn "controllers").mp h3
            rw [hw] at he; cases he
          · have h3' := (hnn2 "controllers").mp (by cases hb : (hasKey obj "controllers" && !(jget obj "controllers" == some JVal.null)); rfl; exact absurd hb h3)
            exact ⟨h1', h2', h3'⟩
    · rintro ⟨h1, h2, h3⟩
      rw [if_neg (by simp [(hnn2 "data").mpr h1]),
          if_neg (by simp [(hnn2 "morphs").mpr h2]),
          if_neg (by simp [(hnn2 "controllers").mpr h3])]
  · unfold normalize_cmd
    have hfirst : (cmdTruthy cmd && pyEndsWith (cmd.getD "") "_result") = false := by
      rw [hres, Bool.and_false]
    rw [if_neg (by simp [hfirst])]
    by_cases hp : (extract_payload obj).isSome = true
    · rw [if_pos hp]
      by_cases hm : (hasKey obj "morphs" &&
          cmdNotIn cmd ["read_all_morphs", "read_all_morphs_result"]) = true
      · rw [if_pos hm]
        rw [if_pos ⟨hp, (Bool.and_eq_true _ _).mp hm⟩]
      · rw [if_neg hm]
        have hm' : ¬ ((extract_payload obj).isSome = true ∧ hasKey obj "morphs" = true ∧
            cmdNotIn cmd ["read_all_morphs", "read_all_morphs_result"] = true) := by
          rintro ⟨_, hb, hc⟩
          exact hm (by rw [hb, hc]; rfl)
        rw [if_neg hm']
        by_cases hc : (hasKey obj "controllers" &&
            cmdNotIn cmd ["read_all_controllers", "read_all_controllers_result"]) = true
        · rw [if_pos hc]
          rw [if_pos ⟨hp, (Bool.and_eq_true _ _).mp hc⟩]
        · rw [if_neg hc]
          have hc' : ¬ ((extract_payload obj).isSome = true ∧ hasKey obj "controllers" = true ∧
              cmdNotIn cmd ["read_all_controllers", "read_all_controllers_result"] = true) := by
            rintro ⟨_, hb, hcc⟩
            exact hc (by rw [hb, hcc]; rfl)
          rw [if_neg hc']
    · rw [if_neg hp]
      rw [if_neg (by rintro ⟨hbad, _⟩; exact hp hbad),
          if_neg (by rintro ⟨hbad, _⟩; exact hp hbad)]

/-- Witness for C7 at the envelope `{"cmd": "x", "morphs": []}`. -/
theorem extract_normalize_spec_witness :
    pyEndsWith ((some "x").getD "") "_result" = false ∧
      normalize_cmd (some "x") [("morphs", JVal.arr [])]
        (extract_payload [("morphs", JVal.arr [])]) =
      (if (extract_payload [("morphs", JVal.arr [])]).isSome = true ∧
          hasKey [("morphs", JVal.arr [])] "morphs" = true ∧
          cmdNotIn (some "x") ["read_all_morphs", "read_all_morphs_result"] = true then
        "read_all_morphs"
      else if (extract_payload [("morphs", JVal.arr [])]).isSome = true ∧
          hasKey [("morphs", JVal.arr [])] "controllers" = true ∧
          cmdNotIn (some "x") ["read_all_controllers", "read_all_controllers_result"] = true then
        "read_all_controllers"
      else (some "x").getD "") :=
  ⟨by decide, (extract_normalize_spec [("morphs", JVal.arr [])] (some "x") (by decide)).2.2⟩

/-- CLAIM C8 — a command already carrying the `_result` suffix is returned
unchanged by `normalize_cmd`, whatever the envelope and payload are. -/
theorem normalize_cmd_result_fixed (s : String) (obj : JObj) (payload : Option JVal)
    (h : pyEndsWith s "_result" = true) :
    normalize_cmd (some s) obj payload = s := by
  have hne : s.data ≠ [] := by
    intro hnil
    have hfalse : pyEndsWith s "_result" = false := by
      unfold pyEndsWith
      rw [hnil]
      decide
    rw [hfalse] at h
    cases h
  have ht : cmdTruthy (some s) = true := by
    show (!s.data.isEmpty) = true
    cases hs : s.data with
    | nil => exact absurd hs hne
    | cons a l => rfl
  have hcond : (cmdTruthy (some s) && pyEndsWith ((some s).getD "") "_result") = true := by
    rw [ht, Option.getD_some, h]; rfl
  unfold normalize_cmd
  rw [if_pos hcond]
  rfl

/-- Witness for C8 at `read_all_morphs_result` with a morphs-carrying
envelope that would otherwise trigger a rewrite. -/
theorem normalize_cmd_result_fixed_witness :
    pyEndsWith "read_all_morphs_result" "_result" = true ∧
      normalize_cmd (some "read_all_morphs_result") [("morphs", JVal.arr [])]
        (some (JVal.arr [])) = "read_all_morphs_result" :=
  ⟨by decide, normalize_cmd_result_fixed "read_all_morphs_result" [("morphs", JVal.arr [])]
    (some (JVal.arr [])) (by decide)⟩

-- Live bridge model (app.py) ----------------------------------------------------

/-- Connections are abstract handles; both socket objects and websocket
objects are identified by a number. -/
abbrev Conn := Nat

/-- One observable delivery: a framed byte string on a TCP connection, or a
text message on a WebSocket connection. -/
inductive Effect where
  | sendTcp (conn : Conn) (bytes : List Nat) : Effect
  | sendWs (ws : Conn) (text : String) : Effect
deriving DecidableEq

/-- Python `json.dumps` with default separators, as `app.py` uses. -/
def pyDumps (v : JVal) : String :=
  jdumps ", " ": " v

/-- Registry read `d.get(conn)` on a connection-keyed dict. -/
def lookupAssoc (m : List (Conn × JObj)) (k : Conn) : Option JObj :=
  match m with
  | [] => none
  | (k', v) :: rest => if k' = k then some v else lookupAssoc rest k

/-- Registry write `d[conn] = ident`. -/
def setAssoc (m : List (Conn × JObj)) (k : Conn) (v : JObj) : List (Conn × JObj) :=
  match m with
  | [] => [(k, v)]
  | (k', v') :: rest => if k' = k then (k, v) :: rest else (k', v') :: setAssoc rest k v

/-- Registry removal `d.pop(conn, None)` (keys are unique, so filtering out
the key is the single removal). -/
def popAssoc (m : List (Conn × JObj)) (k : Conn) : List (Conn × JObj) :=
  m.filter (fun p => p.1 != k)

/-- The browser→native forwarding loop of `app.ws_handler` (the non-`hello`
branch): serialize the envelope once, then send the frame to every TCP client
whose registered identity dict is truthy and matches the envelope's `id` and
`name`; clients without a registry entry are skipped.  Per-send exceptions
are caught and do not stop the loop, so the result lists every delivery
attempt. -/
def wsForwardSends (tcpClients : List Conn) (tcpIdents : List (Conn × JObj))
    (obj : JObj) : List Effect :=
  let wire := strBytes (pyDumps (.obj obj))
  tcpClients.filterMap (fun conn =>
    match lookupAssoc tcpIdents conn with
    | none => none
    | some ident =>
        if pyTruthy (.obj ident) && (jget ident "id" == jget obj "id") &&
            (jget ident "name" == jget obj "name") then
          some (.sendTcp conn (send_frame wire))
        else none)

/-- One iteration of the `app.ws_handler` message loop on a parsed envelope:
on `hello`, register the browser identity and acknowledge on the same
websocket; on anything else, forward to matching TCP clients.  Returns the
updated browser registry and the deliveries. -/
def ws_handle_message (ws : Conn) (wsIdents : List (Conn × JObj))
    (tcpClients : List Conn) (tcpIdents : List (Conn × JObj)) (obj : JObj) :
    List (Conn × JObj) × List Effect :=
  if jget obj "cmd" == some (.str "hello") then
    let cid := (jget obj "id").getD (.str "")
    let cname := (jget obj "name").getD (.str "")
    let ack : JObj :=
      [("cmd", .str "acknowledge"), ("ack", .str "hello"), ("id", cid), ("name", cname)]
    (setAssoc wsIdents ws [("id", cid), ("name", cname)],
     [.sendWs ws (pyDumps (.obj ack))])
  else
    (wsIdents, wsForwardSends tcpClients tcpIdents obj)

/-- One iteration of the `app.handle_tcp_client` loop on a parsed envelope:
on `hello`, register the identity, send the framed acknowledgement back on
the same connection, and broadcast the acknowledgement to every browser; on
anything else, broadcast the envelope to every browser.  Returns the updated
TCP registry and the deliveries (the broadcast is modelled at the instant it
runs on the event loop, over the current browser set). -/
def tcp_handle_message (conn : Conn) (tcpIdents : List (Conn × JObj))
    (wsClients : List Conn) (obj : JObj) : List (Conn × JObj) × List Effect :=
  if jget obj "cmd" == some (.str "hello") then
    let cid := (jget obj "id").getD (.str "")
    let cname := (jget obj "name").getD (.str "")
    let ack : JObj :=
      [("cmd", .str "acknowledge"), ("ack", .str "hello"), ("id", cid), ("name", cname)]
    (setAssoc tcpIdents conn [("id", cid), ("name", cname)],
     .sendTcp conn (send_frame (strBytes (pyDumps (.obj ack)))) ::
       wsClients.map (fun w => .sendWs w (pyDumps (.obj ack))))
  else
    (tcpIdents, wsClients.map (fun w => .sendWs w (pyDumps (.obj obj))))

/-- The `app.broadcast` loop over a snapshot of the browser set: each
connection in `todo` gets a delivery attempt; a failing send (`fails`) is
caught and discards that connection from the live set.  Returns the attempts
in order and the final live set. -/
def broadcastGo (todo : List Conn) (fails : Conn → Bool) (live : List Conn) :
    List Conn × List Conn :=
  match todo with
  | [] => ([], live)
  | ws :: rest =>
      let r := broadcastGo rest fails (if fails ws then live.erase ws else live)
      (ws :: r.1, r.2)

/-- `app.broadcast` run against the current browser set: the loop iterates
over `list(ws_clients)` while discards mutate `ws_clients` itself. -/
def broadcast_run (wsClients : List Conn) (fails : Conn → Bool) :
    List Conn × List Conn :=
  broadcastGo wsClients fails wsClients

/-- The control decision of one `handle_tcp_client` read-loop iteration
(lines 48-56 of `app.py`): a frame-read error breaks the loop (error close),
an empty frame breaks the loop (orderly disconnect), anything else is parsed
and dispatched. -/
inductive TcpStep where
  | errorClose : TcpStep
  | disconnect : TcpStep
  | dispatch (frame rest : List Nat) : TcpStep
deriving DecidableEq

/-- Decide one read-loop iteration from the remaining transport bytes. -/
def tcp_loop_step (stream : List Nat) : TcpStep :=
  match recv_frame stream with
  | .error _ => .errorClose
  | .ok (frame, rest) => if frame.isEmpty then .disconnect else .dispatch frame rest

/-- The `finally` block of `handle_tcp_client`: discard the connection from
the client set and pop its identity. -/
def tcp_cleanup (tcpClients : List Conn) (tcpIdents : List (Conn × JObj))
    (conn : Conn) : List Conn × List (Conn × JObj) :=
  (tcpClients.erase conn, popAssoc tcpIdents conn)

-- Registry helper lemmas --------------------------------------------------------

theorem lookupAssoc_setAssoc_self (m : List (Conn × JObj)) (k : Conn) (v : JObj) :
    lookupAssoc (setAssoc m k v) k = some v := by
  induction m with
  | nil => simp [setAssoc, lookupAssoc]
  | cons p rest ih =>
      obtain ⟨k', v'⟩ := p
      by_cases h : k' = k
      · simp [setAssoc, lookupAssoc, h]
      · simp [setAssoc, lookupAssoc, h, ih]

theorem lookupAssoc_popAssoc_self (m : List (Conn × JObj)) (k : Conn) :
    lookupAssoc (popAssoc m k) k = none := by
  induction m with
  | nil => rfl
  | cons p rest ih =>
      obtain ⟨k', v'⟩ := p
      by_cases h : k' = k
      · simpa [popAssoc, h] using ih
      · simpa [popAssoc, lookupAssoc, h] using ih

-- Broadcast failure isolation (C9) ----------------------------------------------

theorem broadcastGo_fst (todo : List Conn) (fails : Conn → Bool) :
    ∀ live, (broadcastGo todo fails live).1 = todo := by
  induction todo with
  | nil => intro live; rfl
  | cons ws rest ih =>
      intro live
      simp [broadcastGo, ih]

theorem broadcastGo_snd_mem (todo : List Conn) (fails : Conn → Bool) :
    ∀ live, live.Nodup → ∀ c,
      (c ∈ (broadcastGo todo fails live).2 ↔
        c ∈ live ∧ ¬(fails c = true ∧ c ∈ todo)) := by
  induction todo with
  | nil => intro live _ c; simp [broadcastGo]
  | cons ws rest ih =>
      intro live hnd c
      have hstep : (broadcastGo (ws :: rest) fails live).2 =
          (broadcastGo rest fails (if fails ws then live.erase ws else live)).2 := by
        simp [broadcastGo]
      rw [hstep]
      by_cases hf : fails ws = true
      · rw [if_pos hf]
        rw [ih (live.erase ws) (hnd.erase ws) c]
        rw [hnd.mem_erase_iff]
        constructor
        · rintro ⟨⟨hcw, hcl⟩, hno⟩
          refine ⟨hcl, ?_⟩
          rintro ⟨hfc, hmem⟩
          rcases List.mem_cons.mp hmem with rfl | hmem
          · exact hcw rfl
          · exact hno ⟨hfc, hmem⟩
        · rintro ⟨hcl, hno⟩
          by_cases hcw : c = ws
          · subst hcw
            exact absurd ⟨hf, List.mem_cons_self c rest⟩ hno
          · exact ⟨⟨hcw, hcl⟩, fun ⟨hfc, hmem⟩ => hno ⟨hfc, List.mem_cons_of_mem ws hmem⟩⟩
      · rw [if_neg hf]
        rw [ih live hnd c]
        constructor
        · rintro ⟨hcl, hno⟩
          refine ⟨hcl, ?_⟩
          rintro ⟨hfc, hmem⟩
          rcases List.mem_cons.mp hmem with rfl | hmem
          · exact hf hfc
          · exact hno ⟨hfc, hmem⟩
        · rintro ⟨hcl, hno⟩
          exact ⟨hcl, fun ⟨hfc, hmem⟩ => hno ⟨hfc, List.mem_cons_of_mem ws hmem⟩⟩

/-- CLAIM C9 — Broadcast failure isolation: for a duplicate-free browser set,
the broadcast attempts delivery to every browser connection in order even
when some sends fail, and the surviving live set is exactly the connections
whose send did not fail — a failed connection is removed, no other one is. -/
theorem broadcast_failure_isolation (clients : List Conn) (fails : Conn → Bool)
    (h : clients.Nodup) :
    (broadcast_run clients fails).1 = clients ∧
    ∀ c, c ∈ (broadcast_run clients fails).2 ↔ (c ∈ clients ∧ fails c = false) := by
  constructor
  · exact broadcastGo_fst clients fails clients
  · intro c
    rw [broadcast_run, broadcastGo_snd_mem clients fails clients h c]
    constructor
    · rintro ⟨hcl, hno⟩
      refine ⟨hcl, ?_⟩
      cases hb : fails c
      · rfl
      · exact absurd ⟨hb, hcl⟩ hno
    · rintro ⟨hcl, hfc⟩
      exact ⟨hcl, by rintro ⟨hbad, _⟩; rw [hfc] at hbad; cases hbad⟩

/-- Witness for C9: browsers `[1, 2, 3]` where the send to `2` fails — all
three are attempted, `1` stays live, `2` is dropped. -/
theorem broadcast_failure_isolation_witness :
    ([1, 2, 3] : List Conn).Nodup ∧
      (broadcast_run [1, 2, 3] (fun c => c == 2)).1 = [1, 2, 3] ∧
      (1 ∈ (broadcast_run [1, 2, 3] (fun c => c == 2)).2 ↔
        (1 ∈ ([1, 2, 3] : List Conn) ∧ (fun c : Conn => c == 2) 1 = false)) ∧
      (2 ∈ (broadcast_run [1, 2, 3] (fun c => c == 2)).2 ↔
        (2 ∈ ([1, 2, 3] : List Conn) ∧ (fun c : Conn => c == 2) 2 = false)) :=
  ⟨by decide,
   (broadcast_failure_isolation [1, 2, 3] (fun c => c == 2) (by decide)).1,
   (broadcast_failure_isolation [1, 2, 3] (fun c => c == 2) (by decide)).2 1,
   (broadcast_failure_isolation [1, 2, 3] (fun c => c == 2) (by decide)).2 2⟩

-- Zero-length frame (C10) --------------------------------------------------------

/-- CLAIM C10 — a well-formed zero-length frame is an orderly disconnect: the
frame decodes to the empty byte string without raising, the read loop takes
the disconnect exit (so the empty payload is never parsed or dispatched as a
command), and the cleanup removes the connection from the client set and the
identity registry. -/
theorem zero_frame_disconnect (rest : List Nat) (clients : List Conn)
    (idents : List (Conn × JObj)) (conn : Conn) (h : clients.Nodup) :
    recv_frame (send_frame [] ++ rest) = .ok ([], rest) ∧
    tcp_loop_step (send_frame [] ++ rest) = .disconnect ∧
    conn ∉ (tcp_cleanup clients idents conn).1 ∧
    lookupAssoc (tcp_cleanup clients idents conn).2 conn = none := by
  have h1 : recv_frame (send_frame [] ++ rest) = .ok ([], rest) := by
    show recv_frame (([0, 0, 0, 0] : List Nat) ++ rest) = .ok ([], rest)
    unfold recv_frame
    rw [recv_exact_eq]
    have h4 : 4 ≤ (([0, 0, 0, 0] : List Nat) ++ rest).length := by
      simp
    rw [if_pos h4]
    rw [List.take_left' (by rfl), List.drop_left' (by rfl)]
    show recv_exact rest 0 = .ok ([], rest)
    rw [recv_exact_eq]
    simp
  refine ⟨h1, ?_, ?_, lookupAssoc_popAssoc_self idents conn⟩
  · unfold tcp_loop_step
    rw [h1]
    rfl
  · intro hmem
    exact absurd rfl (h.mem_erase_iff.mp hmem).1

/-- Witness for C10: a zero-length frame followed by one stray byte, with
connection `4` tracked alongside `7`. -/
theorem zero_frame_disconnect_witness :
    ([4, 7] : List Conn).Nodup ∧
      recv_frame (send_frame [] ++ [9]) = .ok ([], [9]) ∧
      tcp_loop_step (send_frame [] ++ [9]) = .disconnect ∧
      4 ∉ (tcp_cleanup [4, 7] [(4, [("id", JVal.str "p1")])] 4).1 ∧
      lookupAssoc (tcp_cleanup [4, 7] [(4, [("id", JVal.str "p1")])] 4).2 4 = none :=
  ⟨by decide,
   (zero_frame_disconnect [9] [4, 7] [(4, [("id", JVal.str "p1")])] 4 (by decide)).1,
   (zero_frame_disconnect [9] [4, 7] [(4, [("id", JVal.str "p1")])] 4 (by decide)).2.1,
   (zero_frame_disconnect [9] [4, 7] [(4, [("id", JVal.str "p1")])] 4 (by decide)).2.2.1,
   (zero_frame_disconnect [9] [4, 7] [(4, [("id", JVal.str "p1")])] 4 (by decide)).2.2.2⟩

-- Browser→native routing (C3) ----------------------------------------------------

/-- CLAIM C3 — for a browser-originated non-`hello` envelope, the handler
performs exactly the forwarding loop, and a framed delivery to a TCP
connection happens iff that connection is in the client set, carries a
(non-empty) registered identity whose `id` and `name` both equal the
envelope's, and the delivered bytes are the framed serialized envelope; in
particular a connection with no registered identity is never a target. -/
theorem ws_forward_targets (ws : Conn) (wsIdents tcpIdents : List (Conn × JObj))
    (clients : List Conn) (obj : JObj)
    (hcmd : jget obj "cmd" ≠ some (.str "hello")) :
    (ws_handle_message ws wsIdents clients tcpIdents obj).2 =
      wsForwardSends clients tcpIdents obj ∧
    ∀ conn w, Effect.sendTcp conn w ∈ wsForwardSends clients tcpIdents obj ↔
      (conn ∈ clients ∧ ∃ m, lookupAssoc tcpIdents conn = some m ∧ m ≠ [] ∧
        jget m "id" = jget obj "id" ∧ jget m "name" = jget obj "name" ∧
        w = send_frame (strBytes (pyDumps (.obj obj)))) := by
  have hb : (jget obj "cmd" == some (JVal.str "hello")) = false := by
    rw [beq_eq_false_iff_ne]
    exact hcmd
  constructor
  · unfold ws_handle_message
    rw [if_neg (by simp [hb])]
  · intro conn w
    unfold wsForwardSends
    simp only [List.mem_filterMap]
    constructor
    · rintro ⟨a, ha, hfa⟩
      cases hl : lookupAssoc tcpIdents a with
      | none => rw [hl] at hfa; simp at hfa
      | some ident =>
          simp only [hl] at hfa
          by_cases hcond : (pyTruthy (.obj ident) && (jget ident "id" == jget obj "id") &&
              (jget ident "name" == jget obj "name")) = true
          · rw [if_pos hcond] at hfa
            simp only [Option.some.injEq, Effect.sendTcp.injEq] at hfa
            obtain ⟨rfl, rfl⟩ := hfa
            simp only [Bool.and_eq_true, beq_iff_eq] at hcond
            obtain ⟨⟨htr, hid⟩, hname⟩ := hcond
            have hne : ident ≠ [] := by
              intro hnil
              rw [hnil] at htr
              cases htr
            exact ⟨ha, ident, hl, hne, hid, hname, rfl⟩
          · rw [if_neg hcond] at hfa
            simp at hfa
    · rintro ⟨hconn, m, hm, hne, hid, hname, hw⟩
      refine ⟨conn, hconn, ?_⟩
      simp only [hm]
      have htr : pyTruthy (.obj m) = true := by
        cases hmm : m with
        | nil => exact absurd hmm hne
        | cons p rest => rfl
      have hcond : (pyTruthy (.obj m) && (jget m "id" == jget obj "id") &&
          (jget m "name" == jget obj "name")) = true := by
        rw [htr, beq_iff_eq.mpr hid, beq_iff_eq.mpr hname]
        rfl
      rw [if_pos hcond, hw]

/-- The envelope and registry used by the C3 witness. -/
def c3Obj : JObj :=
  [("cmd", JVal.str "go"), ("id", JVal.str "p1"), ("name", JVal.str "A")]

/-- Witness for C3: one matching registered client and one unregistered
client. -/
theorem ws_forward_targets_witness :
    jget c3Obj "cmd" ≠ some (JVal.str "hello") ∧
      (ws_handle_message 9 [] [0, 1] [(0, [("id", JVal.str "p1"), ("name", JVal.str "A")])]
        c3Obj).2 = wsForwardSends [0, 1] [(0, [("id", JVal.str "p1"), ("name", JVal.str "A")])] c3Obj ∧
      (Effect.sendTcp 0 (send_frame (strBytes (pyDumps (.obj c3Obj)))) ∈
          wsForwardSends [0, 1] [(0, [("id", JVal.str "p1"), ("name", JVal.str "A")])] c3Obj ↔
        (0 ∈ ([0, 1] : List Conn) ∧ ∃ m,
          lookupAssoc [(0, [("id", JVal.str "p1"), ("name", JVal.str "A")])] 0 = some m ∧
          m ≠ [] ∧ jget m "id" = jget c3Obj "id" ∧ jget m "name" = jget c3Obj "name" ∧
          send_frame (strBytes (pyDumps (.obj c3Obj))) =
            send_frame (strBytes (pyDumps (.obj c3Obj))))) :=
  ⟨by decide,
   (ws_forward_targets 9 [] [(0, [("id", JVal.str "p1"), ("name", JVal.str "A")])] [0, 1]
     c3Obj (by decide)).1,
   (ws_forward_targets 9 [] [(0, [("id", JVal.str "p1"), ("name", JVal.str "A")])] [0, 1]
     c3Obj (by decide)).2 0 (send_frame (strBytes (pyDumps (.obj c3Obj))))⟩

-- Native hello handshake (C4) ----------------------------------------------------

/-- The acknowledgement envelope the claim describes:
`{cmd: "acknowledge", ack: "hello", id, name}` with the id and name taken
from the hello envelope (empty strings when absent). -/
def ackObj (obj : JObj) : JObj :=
  [("cmd", .str "acknowledge"), ("ack", .str "hello"),
   ("id", (jget obj "id").getD (.str "")), ("name", (jget obj "name").getD (.str ""))]

/-- CLAIM C4 — on a native `hello`, the manager registers the connection's
identity (the envelope's id and name), sends the framed acknowledgement back
on the same connection, and broadcasts that same acknowledgement to every
connected browser. -/
theorem tcp_hello_ack (conn : Conn) (idents : List (Conn × JObj))
    (wsClients : List Conn) (obj : JObj)
    (hcmd : jget obj "cmd" = some (.str "hello")) :
    lookupAssoc (tcp_handle_message conn idents wsClients obj).1 conn =
      some [("id", (jget obj "id").getD (.str "")),
            ("name", (jget obj "name").getD (.str ""))] ∧
    (tcp_handle_message conn idents wsClients obj).2 =
      Effect.sendTcp conn (send_frame (strBytes (pyDumps (.obj (ackObj obj))))) ::
        wsClients.map (fun w => Effect.sendWs w (pyDumps (.obj (ackObj obj)))) := by
  have hb : (jget obj "cmd" == some (JVal.str "hello")) = true := by
    rw [hcmd]
    rfl
  unfold tcp_handle_message
  rw [if_pos hb]
  exact ⟨lookupAssoc_setAssoc_self idents conn _, rfl⟩

/-- The hello envelope used by the C4 witness. -/
def c4Hello : JObj :=
  [("cmd", JVal.str "hello"), ("id", JVal.str "p1"), ("name", JVal.str "PluginA")]

/-- Witness for C4: plugin `(p1, PluginA)` says hello while browser `5` is
connected. -/
theorem tcp_hello_ack_witness :
    jget c4Hello "cmd" = some (JVal.str "hello") ∧
      lookupAssoc (tcp_handle_message 3 [] [5] c4Hello).1 3 =
        some [("id", (jget c4Hello "id").getD (.str "")),
              ("name", (jget c4Hello "name").getD (.str ""))] ∧
      (tcp_handle_message 3 [] [5] c4Hello).2 =
        Effect.sendTcp 3 (send_frame (strBytes (pyDumps (.obj (ackObj c4Hello))))) ::
          ([5] : List Conn).map (fun w => Effect.sendWs w (pyDumps (.obj (ackObj c4Hello)))) :=
  ⟨by decide,
   (tcp_hello_ack 3 [] [5] c4Hello (by decide)).1,
   (tcp_hello_ack 3 [] [5] c4Hello (by decide)).2⟩

-- set_controller forwarding (C6) -------------------------------------------------

/-- Two registered native connections: `0` is `(p1, PluginA)`, `1` is
`(p2, PluginB)`. -/
def c6Idents : List (Conn × JObj) :=
  [(0, [("id", JVal.str "p1"), ("name", JVal.str "PluginA")]),
   (1, [("id", JVal.str "p2"), ("name", JVal.str "PluginB")])]

/-- The browser's `set_controller` envelope targeting `(p1, PluginA)`. -/
def c6Obj (ctrls : List JVal) : JObj :=
  [("cmd", JVal.str "set_controller"), ("id", JVal.str "p1"),
   ("name", JVal.str "PluginA"), ("controllers", JVal.arr ctrls)]

/-- CLAIM C6 (amended) — with natives `(p1, PluginA)` and `(p2, PluginB)`
registered, a browser `set_controller` envelope addressed to `(p1, PluginA)`
is delivered, framed, exactly to the `(p1, PluginA)` connection and to no
other — but the delivered message is the original envelope serialized
verbatim: the live forwarding path of `app.py` applies no controller
normalization (the normalizing `send_set_controller` helper is never
invoked). -/
theorem set_controller_forward_verbatim (ctrls : List JVal) :
    wsForwardSends [0, 1] c6Idents (c6Obj ctrls) =
      [Effect.sendTcp 0 (send_frame (strBytes (pyDumps (.obj (c6Obj ctrls)))))] := by
  rfl

/-- CLAIM C6 counterexample — with the single controller `{"id": ""}`, the
matching native connection receives the frame of the original envelope, whose
controller list still contains the empty-id entry, while normalization would
have dropped it: the claim that the delivered controllers are normalized
fails. -/
theorem set_controller_forward_counterexample :
    wsForwardSends [0, 1] c6Idents (c6Obj [.obj [("id", JVal.str "")]]) =
      [Effect.sendTcp 0 (send_frame (strBytes (pyDumps
        (.obj (c6Obj [.obj [("id", JVal.str "")]])))))] ∧
    jget (c6Obj [.obj [("id", JVal.str "")]]) "controllers" =
      some (.arr [.obj [("id", JVal.str "")]]) ∧
    normalize_controllers [[("id", JVal.str "")]] = .ok [] :=
  ⟨rfl, rfl, rfl⟩

end VamBridge
